import Mathlib

/-!
Shallow embedding of `src/server.js`: a minimal Express + MongoDB marketplace
listing service with two routes (`POST /api/products`, `GET /api/products`),
a startup connector that resolves the database name from the connection
string, and a readiness guard on the shared collection handle.

JavaScript values occurring in request/response bodies are modelled by `JVal`
(with an explicit not-a-number marker, since `parseFloat` can produce `NaN`).
The MongoDB collection is modelled as a list of documents paired with their
store-assigned identifiers; `insertOne` appends and assigns the next
identifier, and `find({}).sort({createdAt: -1})` is modelled from the spec as
a stable sort by `createdAt` descending (the real ordering is a pure
pass-through request to the store).  Fallible store calls are modelled by an
`Option String` oracle: `none` means the call succeeds, `some e` means the
driver throws an error whose `.message` is `e`.
-/

namespace Server

/-- A JavaScript/JSON value as it can appear in a request body or a stored
document.  `undefined` is the result of reading an absent object field;
`nan` is the not-a-number marker produced by `parseFloat` on non-numeric
input.  Numbers are modelled as rationals. -/
inductive JVal where
  | undefined
  | null
  | bool (b : Bool)
  | num (q : Rat)
  | nan
  | str (s : String)
deriving DecidableEq

/-- A request body is a JSON object: a finite list of field/value pairs.
Reading a field (`req.body.f`) returns the value of the first matching key,
or `undefined` when the key is absent. -/
def lookupField (body : List (String × JVal)) (k : String) : JVal :=
  match body.find? (fun p => p.1 = k) with
  | some p => p.2
  | none => JVal.undefined

/-- Digits of a decimal literal, accumulated into a natural number. -/
def digitsToNat (ds : List Char) : Nat :=
  ds.foldl (fun a c => a * 10 + (c.toNat - 48)) 0

/-- JavaScript `parseFloat` on a character sequence: skip leading
whitespace, read an optional sign, then a decimal literal
(integer digits, optional fractional digits); trailing garbage is ignored.
If no digit is consumed the result is `NaN` (`none`).  The model covers
sign/integer/fraction decimal literals; exponent notation and `Infinity`
are not needed by any input considered here. -/
def parseFloatChars (cs0 : List Char) : Option Rat :=
  let cs1 := cs0.dropWhile (fun c => c = ' ' ∨ c = '\t' ∨ c = '\n' ∨ c = '\r')
  let sc : Int × List Char :=
    match cs1 with
    | '-' :: rest => (-1, rest)
    | '+' :: rest => (1, rest)
    | _ => (1, cs1)
  let intDs := sc.2.takeWhile Char.isDigit
  let rest1 := sc.2.dropWhile Char.isDigit
  let fracDs : List Char :=
    match rest1 with
    | '.' :: rest => rest.takeWhile Char.isDigit
    | _ => []
  if intDs.isEmpty ∧ fracDs.isEmpty then none
  else
    some ((sc.1 : Rat) *
      ((digitsToNat intDs : Rat) + (digitsToNat fracDs : Rat) / (10 : Rat) ^ fracDs.length))

/-- JavaScript `parseFloat` applied to a value (`parseFloat(req.body.productPrice)`,
`src/server.js` line 68).  Non-string, non-numeric values (`undefined`, `null`,
booleans) stringify to non-numeric text and yield `NaN`; a number is returned
unchanged; a string is parsed by `parseFloatChars`. -/
def parseFloat : JVal → JVal
  | JVal.str s =>
      match parseFloatChars s.toList with
      | some q => JVal.num q
      | none => JVal.nan
  | JVal.num q => JVal.num q
  | _ => JVal.nan

/-- The document built by the POST handler (`productData`,
`src/server.js` lines 65-71).  `createdAt` is the server-stamped time,
modelled as a natural-number timestamp. -/
structure Doc where
  productName : JVal
  productDescription : JVal
  productPrice : JVal
  contactInfo : JVal
  createdAt : Nat
deriving DecidableEq

/-- The MongoDB `products` collection: stored documents with their
store-assigned identifiers, in insertion order, plus the next identifier
to assign. -/
structure Store where
  docs : List (Nat × Doc)
  nextId : Nat
deriving DecidableEq

def emptyStore : Store := ⟨[], 0⟩

/-- `insertOne`: the store assigns the next identifier, appends the
document, and returns the assigned `insertedId`. -/
def Store.insertOne (st : Store) (d : Doc) : Nat × Store :=
  (st.nextId, ⟨st.docs ++ [(st.nextId, d)], st.nextId + 1⟩)

/-- Ordering used by `find({}).sort({createdAt: -1})`: `a` may come before
`b` when the timestamp of `a` is at least that of `b` (descending, newest
first). -/
def docGe (a b : Nat × Doc) : Prop := b.2.createdAt ≤ a.2.createdAt

instance : DecidableRel docGe := fun _ _ => Nat.decLe _ _

instance : IsTotal (Nat × Doc) docGe := ⟨fun a b => Nat.le_total b.2.createdAt a.2.createdAt⟩

instance : IsTrans (Nat × Doc) docGe := ⟨fun _ _ _ h1 h2 => Nat.le_trans h2 h1⟩

/-- Modelled from the spec: `find({}).sort({createdAt: -1}).toArray()` returns
every document of the collection, with no filter, ordered by `createdAt`
descending — "a pure pass-through request to the store".  Modelled as a
stable sort of the insertion-ordered list. -/
def Store.findSortDesc (st : Store) : List (Nat × Doc) :=
  List.insertionSort docGe st.docs

/-- A JSON response body, one constructor per literal shape in the source:
`{message}`, `{message, insertedId, product}`, an array of stored documents,
and `{message, error}`. -/
inductive RespBody where
  | jsonMsg (message : String)
  | jsonCreated (message : String) (insertedId : Nat) (product : Doc)
  | jsonList (products : List (Nat × Doc))
  | jsonErr (message : String) (error : String)
deriving DecidableEq

structure Response where
  status : Nat
  body : RespBody
deriving DecidableEq

/-- The fixed readiness-guard response (`src/server.js` lines 61, 92). -/
def dbNotConnectedResp : Response :=
  ⟨500, RespBody.jsonMsg "Database not connected."⟩

/-- The record built from the request body (`productData`,
`src/server.js` lines 65-71): the four input fields, with `productPrice`
passed through `parseFloat`, plus the server-stamped `createdAt`. -/
def productData (body : List (String × JVal)) (now : Nat) : Doc :=
  { productName := lookupField body "productName"
    productDescription := lookupField body "productDescription"
    productPrice := parseFloat (lookupField body "productPrice")
    contactInfo := lookupField body "contactInfo"
    createdAt := now }

/-- The `POST /api/products` handler (`src/server.js` lines 58-86).
`coll` is the (possibly uninitialized) collection handle, `body` the parsed
JSON request body, `now` the current server time (`new Date()`), and
`insertErr` the outcome of the `insertOne` call: `some e` means the driver
throws with message `e`.  Returns the response and the collection handle
after the request (the store is updated on a successful insert). -/
def postProducts (coll : Option Store) (body : List (String × JVal)) (now : Nat)
    (insertErr : Option String) : Response × Option Store :=
  match coll with
  | none => (dbNotConnectedResp, none)
  | some st =>
    match insertErr with
    | some e => (⟨400, RespBody.jsonErr "Error adding product" e⟩, some st)
    | none =>
      let r := st.insertOne (productData body now)
      (⟨201, RespBody.jsonCreated "Product added successfully" r.1 (productData body now)⟩,
        some r.2)

/-- The `GET /api/products` handler (`src/server.js` lines 89-106).
`findErr` is the outcome of the `find`/`sort`/`toArray` call. -/
def getProducts (coll : Option Store) (findErr : Option String) : Response :=
  match coll with
  | none => dbNotConnectedResp
  | some st =>
    match findErr with
    | some e => ⟨500, RespBody.jsonErr "Error fetching products" e⟩
    | none => ⟨200, RespBody.jsonList st.findSortDesc⟩

/-- One incoming HTTP request, with the environment choices it depends on:
the server clock at a POST and the success/failure of the store call. -/
inductive ReqEvent where
  | post (body : List (String × JVal)) (now : Nat) (insertErr : Option String)
  | get (findErr : Option String)

/-- Serve one request against the shared collection handle, returning the
handle afterwards and the response sent. -/
def requestStep (coll : Option Store) : ReqEvent → Option Store × Response
  | ReqEvent.post body now insertErr =>
      let r := postProducts coll body now insertErr
      (r.2, r.1)
  | ReqEvent.get findErr => (coll, getProducts coll findErr)

/-- Serve a sequence of requests, collecting the responses in order. -/
def runRequests (coll : Option Store) : List ReqEvent → Option Store × List Response
  | [] => (coll, [])
  | e :: es =>
      let r := requestStep coll e
      let rest := runRequests r.1 es
      (rest.1, r.2 :: rest.2)

/-- Split at the first `':'` (the end of the URL scheme) and return the
characters after it; `none` when there is no colon at all. -/
def schemeSplit : List Char → Option (List Char)
  | [] => none
  | c :: cs => if c = ':' then some cs else schemeSplit cs

/-- Everything from the first `'/'` on (inclusive); `[]` when there is no
slash, i.e. the URL has an empty path. -/
def fromSlash : List Char → List Char
  | [] => []
  | c :: cs => if c = '/' then c :: cs else fromSlash cs

/-- Cut off the query and fragment: keep characters up to the first `'?'`
or `'#'`. -/
def beforeQuery (cs : List Char) : List Char :=
  cs.takeWhile (fun c => c ≠ '?' ∧ c ≠ '#')

/-- Modelled JS `new URL(uri).pathname`.  For a URL
`scheme://authority/path?query#fragment` (the shape of every MongoDB
connection string) it is the part from the first slash after the authority
up to the query/fragment, and empty when the URL has no path component;
when `"//"` does not follow the scheme the remainder is an opaque path. -/
def urlPathname (uri : String) : String :=
  match schemeSplit uri.toList with
  | some ('/' :: '/' :: rest) => String.mk (fromSlash (beforeQuery rest))
  | some rest => String.mk (beforeQuery rest)
  | none => ""

/-- Database-name resolution (`src/server.js` line 39):
`new URL(uri).pathname.substring(1) || 'test'` — the path component of the
connection string without its leading slash, or the fallback `'test'` when
that is empty. -/
def connectDbName (uri : String) : String :=
  let p := (urlPathname uri).drop 1
  if p = "" then "test" else p

/-- Outcome of startup: either the process exits (`process.exit(1)`) or the
connector is ready with a resolved database name and the collection name. -/
inductive ConnectOutcome where
  | exit (code : Nat)
  | ready (dbName : String) (collectionName : String)
deriving DecidableEq

/-- `connectToMongoDB` (`src/server.js` lines 28-50): connect, ping, then
resolve the database name and take the `products` collection; any failure
of the connect or ping call is caught and terminates the process with exit
code 1.  `connectErr`/`pingErr` are the outcomes of the two driver calls. -/
def connectToMongoDB (connectErr pingErr : Option String) (uri : String) : ConnectOutcome :=
  match connectErr with
  | some _ => ConnectOutcome.exit 1
  | none =>
    match pingErr with
    | some _ => ConnectOutcome.exit 1
    | none => ConnectOutcome.ready (connectDbName uri) "products"

/-- A whole run of the process: exit code (when startup failed) and the
responses served. -/
structure SysRun where
  exitCode : Option Nat
  responses : List Response
deriving DecidableEq

/-- Run the system: startup first (`connectToMongoDB()` at line 53); if it
fails the process has exited and no request is ever served; otherwise the
collection handle is initialized (to the current contents `initStore` of the
products collection) and the requests are served. -/
def runSystem (connectErr pingErr : Option String) (uri : String) (initStore : Store)
    (events : List ReqEvent) : SysRun :=
  match connectToMongoDB connectErr pingErr uri with
  | ConnectOutcome.exit c => ⟨some c, []⟩
  | ConnectOutcome.ready _ _ => ⟨none, (runRequests (some initStore) events).2⟩

/-- Concrete request body from the spec scenario (§8): Tomatoes at "3.50". -/
def tomatoBody : List (String × JVal) :=
  [("productName", JVal.str "Tomatoes"), ("productDescription", JVal.str "Fresh"),
   ("productPrice", JVal.str "3.50"), ("contactInfo", JVal.str "farmer@example.com")]

/-- Concrete request body with a non-numeric price (spec scenario §8). -/
def abcBody : List (String × JVal) :=
  [("productName", JVal.str "Rice"), ("productDescription", JVal.str "Basmati"),
   ("productPrice", JVal.str "abc"), ("contactInfo", JVal.str "x@y.example")]

/-- `parseFloat` on the string `"3.50"` yields the number 3.5 (the `Rat`
arithmetic is evaluated with `norm_num` since the `Rat` operations are not
definitionally reducible). -/
lemma parseFloat_350 : parseFloat (JVal.str "3.50") = JVal.num (7 / 2) := by
  have h : parseFloat (JVal.str "3.50") =
      JVal.num (((1 : Int) : Rat) *
        ((digitsToNat ['3'] : Rat) + (digitsToNat ['5', '0'] : Rat) / (10 : Rat) ^ 2)) := rfl
  have d3 : digitsToNat ['3'] = 3 := rfl
  have d50 : digitsToNat ['5', '0'] = 50 := rfl
  rw [h, d3, d50]
  norm_num

/-- C1 (counterexample): the stored record does not copy `productPrice`
verbatim — for the spec scenario body with `productPrice: "3.50"` (a string)
the handler responds 201 but the stored and echoed `productPrice` is the
number 3.5, not the input string. -/
theorem c1_counterexample :
    lookupField tomatoBody "productPrice" = JVal.str "3.50" ∧
    (postProducts (some emptyStore) tomatoBody 5 none).1 =
      ⟨201, RespBody.jsonCreated "Product added successfully" 0 (productData tomatoBody 5)⟩ ∧
    (productData tomatoBody 5).productPrice = JVal.num (7 / 2) ∧
    (productData tomatoBody 5).productPrice ≠ lookupField tomatoBody "productPrice" := by
  refine ⟨rfl, rfl, parseFloat_350, ?_⟩
  show parseFloat (JVal.str "3.50") ≠ JVal.str "3.50"
  rw [parseFloat_350]
  simp

/-- C1 (amended): after the store handle is initialized, a POST whose insert
succeeds stores a record whose `productName`, `productDescription` and
`contactInfo` are copied verbatim from the body, whose `productPrice` is the
body field coerced by `parseFloat`, and whose `createdAt` is the current
server time; the response has status 201 with the store-assigned
`insertedId` and the full stored record. -/
theorem c1_post_stores_and_echoes :
    ∀ (st : Store) (body : List (String × JVal)) (now : Nat),
      postProducts (some st) body now none =
        (⟨201, RespBody.jsonCreated "Product added successfully" st.nextId
            (productData body now)⟩,
         some ⟨st.docs ++ [(st.nextId, productData body now)], st.nextId + 1⟩) ∧
      (productData body now).productName = lookupField body "productName" ∧
      (productData body now).productDescription = lookupField body "productDescription" ∧
      (productData body now).productPrice = parseFloat (lookupField body "productPrice") ∧
      (productData body now).contactInfo = lookupField body "contactInfo" ∧
      (productData body now).createdAt = now :=
  fun _ _ _ => ⟨rfl, rfl, rfl, rfl, rfl, rfl⟩

/-- C3: a POST whose `productPrice` field parses to the not-a-number marker
is not rejected — the response is 201 and the stored (and echoed) record
carries the marker; concretely `parseFloat "abc"` is the marker while
`parseFloat "3.50"` is the number 3.5. -/
theorem c3_nonnumeric_price_roundtrip :
    (∀ (st : Store) (body : List (String × JVal)) (now : Nat),
        parseFloat (lookupField body "productPrice") = JVal.nan →
        (postProducts (some st) body now none).1.status = 201 ∧
        (postProducts (some st) body now none).1.body =
          RespBody.jsonCreated "Product added successfully" st.nextId (productData body now) ∧
        (productData body now).productPrice = JVal.nan) ∧
    parseFloat (JVal.str "abc") = JVal.nan ∧
    parseFloat (JVal.str "3.50") = JVal.num (7 / 2) := by
  refine ⟨fun st body now h => ⟨rfl, rfl, ?_⟩, by decide, parseFloat_350⟩
  simpa [productData] using h

/-- C3 witness: on the concrete body with price `"abc"`, the hypothesis
holds and the conclusion evaluates. -/
theorem c3_witness :
    parseFloat (lookupField abcBody "productPrice") = JVal.nan ∧
    (postProducts (some emptyStore) abcBody 7 none).1.status = 201 ∧
    (productData abcBody 7).productPrice = JVal.nan :=
  have h : parseFloat (lookupField abcBody "productPrice") = JVal.nan := by decide
  ⟨h, (c3_nonnumeric_price_roundtrip.1 emptyStore abcBody 7 h).1,
    (c3_nonnumeric_price_roundtrip.1 emptyStore abcBody 7 h).2.2⟩

/-- C4: with the collection handle uninitialized, both handlers short-circuit
with status 500 and the fixed message, perform no store operation (the
handle — and hence the store — is untouched), and return normally. -/
theorem c4_unready_guard :
    ∀ (body : List (String × JVal)) (now : Nat) (insertErr findErr : Option String),
      postProducts none body now insertErr = (dbNotConnectedResp, none) ∧
      getProducts none findErr = dbNotConnectedResp ∧
      dbNotConnectedResp = ⟨500, RespBody.jsonMsg "Database not connected."⟩ :=
  fun _ _ _ _ => ⟨rfl, rfl, rfl⟩

/-- C5: with the handle initialized, a failing insert yields status 400 with
`{message, error}` carrying the failure text unsanitized and leaves the
store unchanged (no retry — the single call is the whole effect); a failing
retrieval yields status 500 with `{message, error}`. -/
theorem c5_store_failure_responses :
    ∀ (st : Store) (body : List (String × JVal)) (now : Nat) (e : String),
      postProducts (some st) body now (some e) =
        (⟨400, RespBody.jsonErr "Error adding product" e⟩, some st) ∧
      getProducts (some st) (some e) = ⟨500, RespBody.jsonErr "Error fetching products" e⟩ :=
  fun _ _ _ _ => ⟨rfl, rfl⟩

/-- C8: GET is idempotent — repeating an identical successful GET with no
intervening POST leaves the handle unchanged and returns the identical
response (hence the identical sequence of records) both times. -/
theorem c8_get_idempotent :
    ∀ coll : Option Store,
      (runRequests coll [ReqEvent.get none, ReqEvent.get none]).1 = coll ∧
      ∃ r : Response, (runRequests coll [ReqEvent.get none, ReqEvent.get none]).2 = [r, r] :=
  fun coll => ⟨rfl, ⟨getProducts coll none, rfl⟩⟩

/-- C9: the POST handler reads only the four product fields of the body —
two bodies agreeing on those four lookups produce identical responses and
identical store updates, whatever other fields (a client-supplied
`createdAt`, `_id`, anything) they contain. -/
theorem c9_only_four_fields_read :
    ∀ (coll : Option Store) (b₁ b₂ : List (String × JVal)) (now : Nat) (ierr : Option String),
      lookupField b₁ "productName" = lookupField b₂ "productName" →
      lookupField b₁ "productDescription" = lookupField b₂ "productDescription" →
      lookupField b₁ "productPrice" = lookupField b₂ "productPrice" →
      lookupField b₁ "contactInfo" = lookupField b₂ "contactInfo" →
      postProducts coll b₁ now ierr = postProducts coll b₂ now ierr := by
  intro coll b₁ b₂ now ierr h1 h2 h3 h4
  have hd : productData b₁ now = productData b₂ now := by
    simp [productData, h1, h2, h3, h4]
  cases coll with
  | none => rfl
  | some st =>
      cases ierr with
      | some e => rfl
      | none => simp [postProducts, hd]

/-- C2: a successful GET responds 200 with the whole collection — the
returned sequence is a permutation of the stored documents — ordered by
`createdAt` descending; and after two POSTs in sequence (the clock having
advanced between them), a GET lists the second POST's record before the
first. -/
theorem c2_get_all_sorted_desc :
    (∀ st : Store,
        getProducts (some st) none = ⟨200, RespBody.jsonList st.findSortDesc⟩ ∧
        st.findSortDesc.Perm st.docs ∧
        List.Sorted docGe st.findSortDesc) ∧
    (∀ (b₁ b₂ : List (String × JVal)) (t₁ t₂ : Nat), t₁ < t₂ →
        (runRequests (some emptyStore)
            [ReqEvent.post b₁ t₁ none, ReqEvent.post b₂ t₂ none, ReqEvent.get none]).2 =
          [⟨201, RespBody.jsonCreated "Product added successfully" 0 (productData b₁ t₁)⟩,
           ⟨201, RespBody.jsonCreated "Product added successfully" 1 (productData b₂ t₂)⟩,
           ⟨200, RespBody.jsonList [(1, productData b₂ t₂), (0, productData b₁ t₁)]⟩]) := by
  constructor
  · intro st
    exact ⟨rfl, List.perm_insertionSort docGe st.docs, List.sorted_insertionSort docGe st.docs⟩
  · intro b₁ b₂ t₁ t₂ h
    have hnot : ¬ docGe (0, productData b₁ t₁) (1, productData b₂ t₂) := by
      simpa [docGe, productData] using Nat.not_le.mpr h
    simp [runRequests, requestStep, postProducts, getProducts, Store.insertOne, emptyStore,
      Store.findSortDesc, hnot]

/-- C2 witness: with the two spec-scenario bodies POSTed at times 0 and 1,
the GET response lists the second record first. -/
theorem c2_witness :
    (runRequests (some emptyStore)
        [ReqEvent.post tomatoBody 0 none, ReqEvent.post abcBody 1 none, ReqEvent.get none]).2 =
      [⟨201, RespBody.jsonCreated "Product added successfully" 0 (productData tomatoBody 0)⟩,
       ⟨201, RespBody.jsonCreated "Product added successfully" 1 (productData abcBody 1)⟩,
       ⟨200, RespBody.jsonList [(1, productData abcBody 1), (0, productData tomatoBody 0)]⟩] :=
  c2_get_all_sorted_desc.2 tomatoBody abcBody 0 1 (by decide)

/-- C6: if the startup connection or the health-check ping fails, the
process exits with code 1 and no request is ever served. -/
theorem c6_fatal_startup :
    ∀ (connectErr pingErr : Option String) (uri : String) (initStore : Store)
      (events : List ReqEvent),
      connectErr.isSome ∨ pingErr.isSome →
      connectToMongoDB connectErr pingErr uri = ConnectOutcome.exit 1 ∧
      runSystem connectErr pingErr uri initStore events = ⟨some 1, []⟩ := by
  intro ce pe uri st events h
  match ce, pe, h with
  | some _, _, _ => exact ⟨rfl, rfl⟩
  | none, some _, _ => exact ⟨rfl, rfl⟩
  | none, none, h => simp at h

/-- C6 witness: a failing connect call at startup exits with code 1 and
serves none of the pending requests. -/
theorem c6_witness :
    ((some "boom" : Option String).isSome ∨ (none : Option String).isSome) ∧
    runSystem (some "boom") none "mongodb://h/db" emptyStore [ReqEvent.get none] =
      ⟨some 1, []⟩ :=
  ⟨Or.inl rfl,
    (c6_fatal_startup (some "boom") none "mongodb://h/db" emptyStore [ReqEvent.get none]
        (Or.inl rfl)).2⟩

lemma toList_append (s t : String) : (s ++ t).toList = s.toList ++ t.toList :=
  String.data_append s t

/-- Splitting at the scheme colon skips any colon-free run of characters. -/
lemma schemeSplit_append_colon (cs l : List Char) (h : ∀ c ∈ cs, c ≠ ':') :
    schemeSplit (cs ++ ':' :: l) = some l := by
  induction cs with
  | nil => simp [schemeSplit]
  | cons c cs ih =>
      have hc : c ≠ ':' := h c (List.mem_cons_self c cs)
      simpa [schemeSplit, hc] using ih fun d hd => h d (List.mem_cons_of_mem c hd)

/-- `beforeQuery` keeps a list that contains no query or fragment marker. -/
lemma beforeQuery_eq_self (cs : List Char) (h : ∀ c ∈ cs, c ≠ '?' ∧ c ≠ '#') :
    beforeQuery cs = cs := by
  induction cs with
  | nil => rfl
  | cons c cs ih =>
      have hc := h c (List.mem_cons_self c cs)
      simpa [beforeQuery, List.takeWhile_cons, hc.1, hc.2] using
        ih fun d hd => h d (List.mem_cons_of_mem c hd)

/-- `fromSlash` drops a slash-free run and yields the path from its leading
slash. -/
lemma fromSlash_append (cs l : List Char) (h : ∀ c ∈ cs, c ≠ '/') :
    fromSlash (cs ++ '/' :: l) = '/' :: l := by
  induction cs with
  | nil => simp [fromSlash]
  | cons c cs ih =>
      have hc : c ≠ '/' := h c (List.mem_cons_self c cs)
      simpa [fromSlash, hc] using ih fun d hd => h d (List.mem_cons_of_mem c hd)

/-- Without any slash there is no path component. -/
lemma fromSlash_eq_nil (cs : List Char) (h : ∀ c ∈ cs, c ≠ '/') :
    fromSlash cs = [] := by
  induction cs with
  | nil => rfl
  | cons c cs ih =>
      have hc : c ≠ '/' := h c (List.mem_cons_self c cs)
      simpa [fromSlash, hc] using ih fun d hd => h d (List.mem_cons_of_mem c hd)

/-- C7: the working database name is the path component of the connection
string — for a connection string `mongodb://host/db` (host free of path,
query and fragment markers; db free of query and fragment markers) the
resolved name is `db`, falling back to `test` when the path component is
empty or absent — and on a successful startup the handle obtained is the
`products` collection of that database. -/
theorem c7_dbname_resolution :
    (∀ host db : String,
        (∀ c ∈ host.toList, c ≠ '/' ∧ c ≠ '?' ∧ c ≠ '#') →
        (∀ c ∈ db.toList, c ≠ '?' ∧ c ≠ '#') →
        connectDbName ("mongodb://" ++ host ++ "/" ++ db) =
          if db = "" then "test" else db) ∧
    (∀ host : String,
        (∀ c ∈ host.toList, c ≠ '/' ∧ c ≠ '?' ∧ c ≠ '#') →
        connectDbName ("mongodb://" ++ host) = "test") ∧
    (∀ uri : String,
        connectToMongoDB none none uri =
          ConnectOutcome.ready (connectDbName uri) "products") := by
  refine ⟨?_, ?_, fun _ => rfl⟩
  · intro host db hhost hdb
    have hlist : ("mongodb://" ++ host ++ "/" ++ db).toList =
        ['m', 'o', 'n', 'g', 'o', 'd', 'b'] ++
          ':' :: ('/' :: '/' :: (host.toList ++ '/' :: db.toList)) := by
      simp [toList_append,
        show "mongodb://".toList = ['m', 'o', 'n', 'g', 'o', 'd', 'b', ':', '/', '/'] from rfl,
        show "/".toList = ['/'] from rfl]
    have hss : schemeSplit ("mongodb://" ++ host ++ "/" ++ db).toList =
        some ('/' :: '/' :: (host.toList ++ '/' :: db.toList)) := by
      rw [hlist]
      exact schemeSplit_append_colon _ _ (by decide)
    have hbq : beforeQuery (host.toList ++ '/' :: db.toList) =
        host.toList ++ '/' :: db.toList := by
      refine beforeQuery_eq_self _ fun c hc => ?_
      rcases List.mem_append.mp hc with hc | hc
      · exact ⟨(hhost c hc).2.1, (hhost c hc).2.2⟩
      · rcases List.mem_cons.mp hc with hc | hc
        · subst hc; exact ⟨by decide, by decide⟩
        · exact hdb c hc
    have hpath : urlPathname ("mongodb://" ++ host ++ "/" ++ db) =
        String.mk ('/' :: db.toList) := by
      unfold urlPathname
      rw [hss]
      show String.mk (fromSlash (beforeQuery (host.toList ++ '/' :: db.toList))) = _
      rw [hbq, fromSlash_append _ _ fun c hc => (hhost c hc).1]
    have hdrop : (String.mk ('/' :: db.toList)).drop 1 = db := by
      rw [String.drop_eq]
      rfl
    show (if (urlPathname ("mongodb://" ++ host ++ "/" ++ db)).drop 1 = "" then "test"
          else (urlPathname ("mongodb://" ++ host ++ "/" ++ db)).drop 1) =
        if db = "" then "test" else db
    rw [hpath, hdrop]
  · intro host hhost
    have hlist : ("mongodb://" ++ host).toList =
        ['m', 'o', 'n', 'g', 'o', 'd', 'b'] ++ ':' :: ('/' :: '/' :: host.toList) := by
      simp [toList_append,
        show "mongodb://".toList = ['m', 'o', 'n', 'g', 'o', 'd', 'b', ':', '/', '/'] from rfl]
    have hss : schemeSplit ("mongodb://" ++ host).toList =
        some ('/' :: '/' :: host.toList) := by
      rw [hlist]
      exact schemeSplit_append_colon _ _ (by decide)
    have hbq : beforeQuery host.toList = host.toList :=
      beforeQuery_eq_self _ fun c hc => ⟨(hhost c hc).2.1, (hhost c hc).2.2⟩
    have hpath : urlPathname ("mongodb://" ++ host) = String.mk [] := by
      unfold urlPathname
      rw [hss]
      show String.mk (fromSlash (beforeQuery host.toList)) = _
      rw [hbq, fromSlash_eq_nil _ fun c hc => (hhost c hc).1]
    show (if (urlPathname ("mongodb://" ++ host)).drop 1 = "" then "test"
          else (urlPathname ("mongodb://" ++ host)).drop 1) = "test"
    rw [hpath, String.drop_eq]
    rfl

/-- C7 witness: a realistic connection string resolves to its path
component as the database name. -/
theorem c7_witness :
    connectDbName ("mongodb://" ++ "user:pw@cluster0.example.net" ++ "/" ++ "agromarketplace") =
      if ("agromarketplace" : String) = "" then "test" else "agromarketplace" :=
  c7_dbname_resolution.1 "user:pw@cluster0.example.net" "agromarketplace"
    (by decide) (by decide)

/-- One request step never changes whether the collection handle is
initialized. -/
lemma requestStep_fst_none (coll : Option Store) (e : ReqEvent) :
    (requestStep coll e).1 = none ↔ coll = none := by
  cases e with
  | post body now ierr =>
      cases coll with
      | none => simp [requestStep, postProducts]
      | some st => cases ierr <;> simp [requestStep, postProducts]
  | get ferr => exact Iff.rfl

/-- A request step answers with the fixed `Database not connected.` response
exactly when the handle is uninitialized. -/
lemma requestStep_snd_dbNot (coll : Option Store) (e : ReqEvent) :
    (requestStep coll e).2 = dbNotConnectedResp ↔ coll = none := by
  cases coll with
  | none =>
      cases e with
      | post body now ierr => simp [requestStep, postProducts]
      | get ferr => simp [requestStep, getProducts]
  | some st =>
      cases e with
      | post body now ierr =>
          cases ierr <;> simp [requestStep, postProducts, dbNotConnectedResp]
      | get ferr =>
          cases ferr <;> simp [requestStep, getProducts, dbNotConnectedResp]

/-- C10: readiness is monotone — across any sequence of requests the handle
stays initialized exactly when it started initialized, and a response equals
the fixed `Database not connected.` reply precisely when the handle was
uninitialized; hence once any request has been served through the store,
that branch is unreachable for every request of the run. -/
theorem c10_readiness_monotone :
    ∀ (coll : Option Store) (events : List ReqEvent),
      ((runRequests coll events).1 = none ↔ coll = none) ∧
      ∀ r ∈ (runRequests coll events).2, (r = dbNotConnectedResp ↔ coll = none) := by
  intro coll events
  induction events generalizing coll with
  | nil => simp [runRequests]
  | cons e es ih =>
      have hstep := requestStep_fst_none coll e
      have hresp := requestStep_snd_dbNot coll e
      have hih := ih (requestStep coll e).1
      constructor
      · simpa [runRequests] using hih.1.trans hstep
      · intro r hr
        simp only [runRequests, List.mem_cons] at hr
        rcases hr with hr | hr
        · exact hr ▸ hresp
        · exact (hih.2 r hr).trans hstep

/-- C10 witness: with an uninitialized handle the served response is the
fixed guard reply, and the characterization instantiates at it. -/
theorem c10_witness :
    (dbNotConnectedResp ∈ (runRequests none [ReqEvent.get none]).2) ∧
    (dbNotConnectedResp = dbNotConnectedResp ↔ (none : Option Store) = none) :=
  have hm : dbNotConnectedResp ∈ (runRequests none [ReqEvent.get none]).2 := by decide
  ⟨hm, (c10_readiness_monotone none [ReqEvent.get none]).2 dbNotConnectedResp hm⟩

/-- C9 witness: a body extended with client-supplied `createdAt` and `_id`
fields produces exactly the same result as the body without them. -/
theorem c9_witness :
    postProducts (some emptyStore) tomatoBody 3 none =
      postProducts (some emptyStore)
        (tomatoBody ++ [("createdAt", JVal.num 999), ("_id", JVal.str "attacker")]) 3 none :=
  c9_only_four_fields_read (some emptyStore) tomatoBody
    (tomatoBody ++ [("createdAt", JVal.num 999), ("_id", JVal.str "attacker")]) 3 none
    (by decide) (by decide) (by decide) (by decide)

end Server
